import Mathlib

/-!
Verification of the credential/grade management core of SEC_Projet.

Shallow embedding of `src/db.rs` and `src/actions.rs`.  Conventions:

* The `User` record mirrors the Rust `User` struct; the `[u8; 128]` hash blob
  is modelled as `List Nat`, the `Vec<f32>` grade list as `List ℚ` (the claims
  under study concern comparisons and record scoping, on which `f32` on
  non-NaN values agrees with the rational order; the interactive input test
  rejects NaN since `NaN >= 0.0` is false).
* Interactive inputs (`ask_for_email`, `input()`, `Uuid::new_v4`,
  `rand::thread_rng`, `argon2` hashing) are external collaborators or random
  sources: the values they produce enter the model as explicit arguments, and
  the hash-verification function `verify` is a function parameter.
* The access-control engine (`access_control::auth`, bridged with `block_on`)
  is modelled as a boolean-valued function parameter `auth : UserDTO → Action → Bool`.
* Mutable global state (`DATABASE`, the backing file, the policy file) is
  modelled by explicit state passing over `DBState`; `save_database_to_file`
  copies the in-memory collection into the `file` component.  Each operation
  returns the new state together with the list of diagnostic `println!`
  messages it emits (input-prompt strings from the `read_input` library are
  not part of this list).
-/

namespace SecProjet

/-- The persisted user record (`struct User`, db.rs lines 34-42). -/
structure User where
  id : String
  email : String
  name : String
  pw_hash : List Nat
  grades : List ℚ
deriving Repr, DecidableEq

/-- Post-authentication projection (`struct UserDTO`, db.rs lines 44-48). -/
structure UserDTO where
  id : String
  email : String
deriving Repr, DecidableEq

/-- The four access-control actions consulted by db.rs
(`access_control::TEACHER_ACC` and friends). -/
inductive Action where
  | TEACHER_ACC
  | STUDENT_ACC
  | ENTER_GRADE
  | SHOW_GRADES
deriving Repr, DecidableEq

/-- db.rs line 67. -/
def NOT_ALLOWED_MSG : String := "You are not allowed to do that!"

/-- The compile-time super-user hash constant (db.rs lines 57-64),
byte for byte. -/
def ADMIN_HASH : List Nat := [
  36, 97, 114, 103, 111, 110, 50, 105, 100, 36, 118, 61, 49, 57, 36, 109, 61, 54, 53, 53, 51, 54,
  44, 116, 61, 50, 44, 112, 61, 49, 36, 56, 55, 81, 104, 72, 69, 100, 71, 51, 113, 120, 67, 118,
  82, 105, 56, 65, 115, 110, 85, 43, 65, 36, 78, 118, 68, 68, 53, 83, 89, 79, 109, 78, 118, 68,
  66, 74, 71, 88, 70, 109, 73, 87, 114, 98, 83, 99, 118, 69, 56, 115, 110, 75, 116, 106, 104,
  119, 72, 48, 56, 54, 111, 112, 99, 112, 111, 0, 0, 0, 0, 0, 0, 0, 0, 0, 0, 0, 0, 0, 0, 0, 0, 0,
  0, 0, 0, 0, 0, 0, 0, 0, 0, 0, 0, 0, 0, 0]

/-- The mutable world visible to db.rs: the in-memory `DATABASE` vector, the
contents of the backing persistence file, and the appended lines of the
access-control policy file. -/
structure DBState where
  db : List User
  file : List User
  policy : List String
deriving Repr, DecidableEq

/-- `save_database_to_file` (db.rs lines 251-256): serializes the whole
in-memory collection into the backing file, overwriting it. -/
def save_database_to_file (s : DBState) : DBState := { s with file := s.db }

/-- `login` (db.rs lines 69-97).  `email` and `pw` are the interactively
entered credentials; `verify` is `hash::verify`.  Branches on the reserved
name `"admin"` before consulting the store; otherwise scans the store for the
first record whose email matches and whose hash verifies. -/
def login (verify : List Nat → String → Bool) (db : List User)
    (email pw : String) : Option UserDTO :=
  if email == "admin" then
    if verify ADMIN_HASH pw then some ⟨"admin", "admin"⟩ else none
  else
    match db.find? (fun u => u.email == email && verify u.pw_hash pw) with
    | some u => some ⟨u.id, u.email⟩
    | none => none

/-- Helper mirroring the Rust `for i in 0..len { if p(data[i]) { mutate; return } }`
loop shape: rewrite the first element satisfying `f` using `g`; `none` when no
element matches (the loop fell through). -/
def update_first (f : User → Bool) (g : User → User) : List User → Option (List User)
  | [] => none
  | u :: rest =>
    if f u then some (g u :: rest)
    else (update_first f g rest).map (fun l => u :: l)

/-- `create_account` (db.rs lines 99-150).  `email`, `pwHash` (the result of
`padded_hash` on the entered password), `nm` and `uid` (the fresh
`Uuid::new_v4`) are the interactively obtained inputs.  On authorization
failure prints `NOT_ALLOWED_MSG` and leaves the state untouched; otherwise
pushes the new record (empty grade list), appends the grouping fact to the
policy file for a teacher account, and saves the database. -/
def create_account (auth : UserDTO → Action → Bool) (user : UserDTO)
    (is_teacher_account : Bool) (email : String) (pwHash : List Nat)
    (nm uid : String) (s : DBState) : DBState × List String :=
  if is_teacher_account && !(auth user .TEACHER_ACC) then (s, [NOT_ALLOWED_MSG])
  else if !is_teacher_account && !(auth user .STUDENT_ACC) then (s, [NOT_ALLOWED_MSG])
  else
    let db' := s.db ++ [{ id := uid, email := email, name := nm,
                          pw_hash := pwHash, grades := [] }]
    let policy' := if is_teacher_account
      then s.policy ++ ["g, " ++ uid ++ ", teacher"]
      else s.policy
    (save_database_to_file { db := db', file := s.file, policy := policy' }, [])

/-- `reset_password` (db.rs lines 152-189).  `code` is the random 6-digit
token, `code_entered` the re-entered one, `newHash` the `padded_hash` of the
newly chosen password.  Rejects the super-user outright.  On a code match the
loop installs the new hash into the first record matching the actor's email
and returns at once (no save); if the loop falls through, or on a code
mismatch, `save_database_to_file` runs. -/
def reset_password (user : UserDTO) (code code_entered : Nat)
    (newHash : List Nat) (s : DBState) : DBState × List String :=
  if user.id == "admin" then
    (s, ["That's the one thing you cannot do! Change the password directly in the code"])
  else if code == code_entered then
    match update_first (fun u => u.email == user.email)
        (fun u => { u with pw_hash := newHash }) s.db with
    | some db' => ({ s with db := db' }, ["A token will been sent to the email"])
    | none => (save_database_to_file s, ["A token will been sent to the email"])
  else
    (save_database_to_file s, ["A token will been sent to the email", "Wrong code"])

/-- The acceptance test of the grade prompt
(`input().add_test(|x| *x >= 0.0 && *x <= 6.0)`, db.rs line 201): the
`read_input` loop re-prompts until this test passes, so only accepted values
ever reach the store code. -/
def grade_accepted (grade : ℚ) : Bool := decide (0 ≤ grade) && decide (grade ≤ 6)

/-- `enter_grade` (db.rs lines 191-215).  `email` is the target entered at the
prompt, `grade` the accepted grade value.  On authorization failure prints
`NOT_ALLOWED_MSG`.  If a record matches the email, its grade list gets the
new grade appended and the function returns at once (no save); if no record
matches, the not-found diagnostic is printed and `save_database_to_file`
runs. -/
def enter_grade (auth : UserDTO → Action → Bool) (user : UserDTO)
    (email : String) (grade : ℚ) (s : DBState) : DBState × List String :=
  if !(auth user .ENTER_GRADE) then (s, [NOT_ALLOWED_MSG])
  else
    match update_first (fun u => u.email == email)
        (fun u => { u with grades := u.grades ++ [grade] }) s.db with
    | some db' => ({ s with db := db' }, [])
    | none => (save_database_to_file s, ["No Student found with that email"])

/-- Arithmetic mean as computed at db.rs line 234 (`sum / len`). -/
def mean (gs : List ℚ) : ℚ := gs.sum / (gs.length : ℚ)

/-- `show_grades` (db.rs lines 217-241).  Returns the list of displayed
entries (email, grade list, mean); the printed string is their concatenation.
An entry is displayed iff its grade list is non-empty and either the
show-all-grades authorization succeeded or the record's id is the actor's. -/
def show_grades (auth : UserDTO → Action → Bool) (user : UserDTO)
    (s : DBState) : List (String × List ℚ × ℚ) :=
  let is_teacher := auth user .SHOW_GRADES
  s.db.filterMap fun cu =>
    if !cu.grades.isEmpty && (is_teacher || user.id == cu.id)
    then some (cu.email, cu.grades, mean cu.grades)
    else none

/-- `read_database_from_file` (db.rs lines 243-249).  `contents` is the
outcome of `File::open` + read (`none` when the file is missing or
unreadable); `parse` is `serde_json::from_reader` (`none` on a parse
failure).  Either failure propagates via `?`. -/
def read_database_from_file (contents : Option String)
    (parse : String → Option (List User)) : Option (List User) :=
  match contents with
  | none => none
  | some c => parse c

/-- The lazy `DATABASE` initializer (db.rs lines 50-55):
`read_database_from_file(DATABASE_FILE).unwrap_or(Vec::new())`. -/
def database_init (contents : Option String)
    (parse : String → Option (List User)) : List User :=
  (read_database_from_file contents parse).getD []

/-- `become_teacher` (actions.rs lines 33-42).  `rep` is the interactively
entered answer; returns the new value of the caller's `teacher` flag. -/
def become_teacher (rep : String) (teacher : Bool) : Bool :=
  if rep == "yes" then true else teacher

/-- The grade-range invariant of the store (spec section 3). -/
def grades_in_range (db : List User) : Prop :=
  ∀ u ∈ db, ∀ g ∈ u.grades, 0 ≤ g ∧ g ≤ 6

instance (db : List User) : Decidable (grades_in_range db) :=
  inferInstanceAs (Decidable (∀ u ∈ db, ∀ g ∈ u.grades, 0 ≤ g ∧ g ≤ 6))

/-- An access-control oracle granting everything, for concrete scenarios. -/
def auth_allow : UserDTO → Action → Bool := fun _ _ => true

/-- An access-control oracle denying everything, for concrete scenarios. -/
def auth_deny : UserDTO → Action → Bool := fun _ _ => false

/-- A concrete consistent state with one stored student record, used to
exercise the operations at explicit inputs. -/
def sample_state : DBState :=
  { db := [{ id := "s1", email := "s@x.com", name := "S",
             pw_hash := List.replicate 128 7, grades := [] }],
    file := [{ id := "s1", email := "s@x.com", name := "S",
               pw_hash := List.replicate 128 7, grades := [] }],
    policy := [] }

/-- Claim C9: if the backing persistence file is missing or unreadable, or its
contents fail to parse, the store's lazy initializer silently yields the empty
collection; when reading and parsing succeed it yields the parsed data. -/
theorem c9_missing_or_corrupt_file_yields_empty_store
    (parse : String → Option (List User)) (c : String) (d : List User) :
    database_init none parse = []
    ∧ (parse c = none → database_init (some c) parse = [])
    ∧ (parse c = some d → database_init (some c) parse = d) := by
  refine ⟨rfl, ?_, ?_⟩ <;> intro h <;>
    simp [database_init, read_database_from_file, h]

/-- Witness for C9 at a concrete failing parse. -/
theorem c9_witness :
    database_init (some "corrupt") (fun _ => none) = [] :=
  (c9_missing_or_corrupt_file_yields_empty_store (fun _ => none) "corrupt" []).2.1 rfl

/-- Claim C10: `become_teacher` yields a `true` teacher flag when the entered
answer is exactly the string `"yes"`, and leaves the flag unchanged on any
other answer (the comparison is case-sensitive and consults no credential:
the function's only inputs are the answer and the current flag). -/
theorem c10_become_teacher_iff_exact_yes (rep : String) (teacher : Bool) :
    (rep = "yes" → become_teacher rep teacher = true)
    ∧ (rep ≠ "yes" → become_teacher rep teacher = teacher) := by
  constructor <;> intro h <;> simp [become_teacher, h]

/-- Witness for C10: `"yes"` elevates, the differently-cased `"Yes"` leaves
the flag unchanged. -/
theorem c10_witness :
    become_teacher "yes" false = true ∧ become_teacher "Yes" false = false :=
  ⟨(c10_become_teacher_iff_exact_yes "yes" false).1 rfl,
   (c10_become_teacher_iff_exact_yes "Yes" false).2 (by decide)⟩

/-- Claim C7: a login attempt under the reserved identifier `"admin"` is
decided purely by verification against the constant `ADMIN_HASH`: the result
does not depend on the record store in any way, is the admin identity when
verification succeeds, and `none` when it fails. -/
theorem c7_admin_login_ignores_store (verify : List Nat → String → Bool)
    (db db2 : List User) (pw : String) :
    login verify db "admin" pw = login verify db2 "admin" pw
    ∧ (verify ADMIN_HASH pw = true →
        login verify db "admin" pw = some ⟨"admin", "admin"⟩)
    ∧ (verify ADMIN_HASH pw = false → login verify db "admin" pw = none) := by
  refine ⟨rfl, ?_, ?_⟩ <;> intro h <;> simp [login, h]

/-- Witness for C7: with an always-succeeding verifier, admin login succeeds
even though a record with email `"admin"` and a different id sits in the
store. -/
theorem c7_witness :
    login (fun _ _ => true)
      [{ id := "imp", email := "admin", name := "I", pw_hash := [], grades := [] }]
      "admin" "pw" = some ⟨"admin", "admin"⟩ :=
  (c7_admin_login_ignores_store (fun _ _ => true)
    [{ id := "imp", email := "admin", name := "I", pw_hash := [], grades := [] }]
    [] "pw").2.1 rfl

/-- Claim C6: every failed login attempt returns `none` — whether the
supplied email matches no stored record, or records match but the password
fails hash verification on all of them, or the reserved admin name is used
with a password failing verification against the constant hash.  All failure
modes collapse to the same outcome. -/
theorem c6_failed_login_returns_none (verify : List Nat → String → Bool)
    (db : List User) (email pw : String) :
    (email ≠ "admin" → (∀ u ∈ db, u.email ≠ email) →
      login verify db email pw = none)
    ∧ (email ≠ "admin" → (∀ u ∈ db, u.email = email → verify u.pw_hash pw = false) →
      login verify db email pw = none)
    ∧ (email = "admin" → verify ADMIN_HASH pw = false →
      login verify db email pw = none) := by
  refine ⟨?_, ?_, ?_⟩
  · intro hne hmiss
    simp only [login, beq_iff_eq, if_neg hne]
    rw [List.find?_eq_none.2]
    intro u hu
    simp [hmiss u hu]
  · intro hne hver
    simp only [login, beq_iff_eq, if_neg hne]
    rw [List.find?_eq_none.2]
    intro u hu
    by_cases he : u.email = email
    · simp [he, hver u hu he]
    · simp [he]
  · intro he hv
    subst he
    simp [login, hv]

/-- Witness for C6: unknown email and wrong password on a known email both
produce `none` on a concrete store. -/
theorem c6_witness :
    login (fun _ _ => false) sample_state.db "nobody@x.com" "pw" = none
    ∧ login (fun _ _ => false) sample_state.db "s@x.com" "wrong" = none :=
  ⟨(c6_failed_login_returns_none (fun _ _ => false) sample_state.db
      "nobody@x.com" "pw").1 (by decide) (by decide),
   (c6_failed_login_returns_none (fun _ _ => false) sample_state.db
      "s@x.com" "wrong").2.1 (by decide) (fun _ _ _ => rfl)⟩

/-- `update_first` finds nothing exactly when no element passes the test
(the Rust loop falls through). -/
theorem update_first_eq_none (f : User → Bool) (g : User → User) (l : List User)
    (h : ∀ u ∈ l, f u = false) : update_first f g l = none := by
  induction l with
  | nil => rfl
  | cons u rest ih =>
    simp only [update_first, h u (List.mem_cons_self u rest)]
    simp [ih fun v hv => h v (List.mem_cons_of_mem u hv)]

/-- Claim C1 (code bug evaluation): on the successful password-reset path —
non-admin actor whose email is stored, matching one-time code, new hash
installed — the function returns without calling `save_database_to_file`:
the in-memory record carries the new hash while the backing file still holds
the old one.  The success log line after the loop is likewise unreachable,
showing the early `return` is a slip. -/
theorem c1_reset_success_skips_persist :
    ((reset_password ⟨"s1", "s@x.com"⟩ 482913 482913
        (List.replicate 128 9) sample_state).1.db.map User.pw_hash
      = [List.replicate 128 9])
    ∧ (reset_password ⟨"s1", "s@x.com"⟩ 482913 482913
        (List.replicate 128 9) sample_state).1.file = sample_state.file
    ∧ (reset_password ⟨"s1", "s@x.com"⟩ 482913 482913
        (List.replicate 128 9) sample_state).1.db
      ≠ (reset_password ⟨"s1", "s@x.com"⟩ 482913 482913
        (List.replicate 128 9) sample_state).1.file := by
  refine ⟨by decide, by decide, by decide⟩

/-- Claim C2 (code bug evaluation): a completed grade append leaves the
backing file stale.  With an authorized actor and a stored matching record,
`enter_grade` appends the grade in memory and returns before the save call:
afterwards the file differs from the in-memory collection. -/
theorem c2_enter_grade_skips_persist :
    (enter_grade auth_allow ⟨"t1", "t@x.com"⟩ "s@x.com" (9/2 : ℚ)
        sample_state).1.db.map User.grades = [[(9/2 : ℚ)]]
    ∧ (enter_grade auth_allow ⟨"t1", "t@x.com"⟩ "s@x.com" (9/2 : ℚ)
        sample_state).1.file = sample_state.file
    ∧ (enter_grade auth_allow ⟨"t1", "t@x.com"⟩ "s@x.com" (9/2 : ℚ)
        sample_state).1.db
      ≠ (enter_grade auth_allow ⟨"t1", "t@x.com"⟩ "s@x.com" (9/2 : ℚ)
        sample_state).1.file := by
  refine ⟨rfl, rfl, by decide⟩

/-- A state whose backing file is stale (differs from the in-memory store),
making a triggered save observable. -/
def stale_state : DBState :=
  { db := [{ id := "s1", email := "s@x.com", name := "S",
             pw_hash := [], grades := [(4 : ℚ)] }],
    file := [],
    policy := [] }

/-- Counterexample to claim C3: at this concrete input — authorized actor,
target email absent from the store — the store is left unchanged and the
not-found diagnostic is emitted, but persistence IS triggered: the backing
file, stale beforehand, is rewritten with the in-memory collection, refuting
the conjunct "persistence is not triggered on this no-op path". -/
theorem c3_counterexample :
    (enter_grade auth_allow ⟨"t1", "t@x.com"⟩ "missing@x.com" (9/2 : ℚ)
        stale_state).1.db = stale_state.db
    ∧ "No Student found with that email"
        ∈ (enter_grade auth_allow ⟨"t1", "t@x.com"⟩ "missing@x.com" (9/2 : ℚ)
            stale_state).2
    ∧ ¬((enter_grade auth_allow ⟨"t1", "t@x.com"⟩ "missing@x.com" (9/2 : ℚ)
            stale_state).1.file = stale_state.file) := by
  refine ⟨by decide, by decide, by decide⟩

/-- Claim C3 as amended: for every authorized `enter_grade` call whose target
email matches no stored record, the store is left unchanged and the not-found
diagnostic is emitted, but `save_database_to_file` does run on this path: the
backing file is rewritten with the (unchanged) in-memory collection. -/
theorem c3_enter_grade_not_found_noop_but_persists
    (auth : UserDTO → Action → Bool) (user : UserDTO) (email : String)
    (g : ℚ) (s : DBState)
    (hauth : auth user .ENTER_GRADE = true)
    (hmiss : ∀ u ∈ s.db, u.email ≠ email) :
    (enter_grade auth user email g s).1.db = s.db
    ∧ (enter_grade auth user email g s).2 = ["No Student found with that email"]
    ∧ (enter_grade auth user email g s).1.file = s.db := by
  have hnone : update_first (fun u => u.email == email)
      (fun u => { u with grades := u.grades ++ [g] }) s.db = none :=
    update_first_eq_none _ _ _ (fun u hu => by simp [hmiss u hu])
  simp [enter_grade, hauth, hnone, save_database_to_file]

/-- Witness for the amended C3 at a concrete state with a stale file. -/
theorem c3_witness :
    (enter_grade auth_allow ⟨"t1", "t@x.com"⟩ "missing2@x.com" (1 : ℚ)
        stale_state).1.file = stale_state.db :=
  (c3_enter_grade_not_found_noop_but_persists auth_allow ⟨"t1", "t@x.com"⟩
    "missing2@x.com" (1 : ℚ) stale_state rfl (by decide)).2.2

/-- Every element of an `update_first` result is either an untouched element
of the input or the image under `g` of an element of the input. -/
theorem update_first_mem (f : User → Bool) (g : User → User) (l l' : List User)
    (h : update_first f g l = some l') :
    ∀ x ∈ l', x ∈ l ∨ ∃ u, u ∈ l ∧ x = g u := by
  induction l generalizing l' with
  | nil => cases h
  | cons u rest ih =>
    by_cases hf : f u = true
    · rw [update_first, if_pos hf] at h
      cases Option.some.inj h
      intro x hx
      rcases List.mem_cons.mp hx with hx | hx
      · exact Or.inr ⟨u, List.mem_cons_self u rest, hx⟩
      · exact Or.inl (List.mem_cons_of_mem u hx)
    · rw [update_first, if_neg hf] at h
      obtain ⟨rest', hrest, hcons⟩ := Option.map_eq_some'.mp h
      cases hcons
      intro x hx
      rcases List.mem_cons.mp hx with hx | hx
      · exact Or.inl (hx ▸ List.mem_cons_self u rest)
      · rcases ih rest' hrest x hx with hx' | ⟨v, hv, hxv⟩
        · exact Or.inl (List.mem_cons_of_mem u hx')
        · exact Or.inr ⟨v, List.mem_cons_of_mem u hv, hxv⟩

/-- Claim C4: when the show-all-grades authorization is denied, every
displayed entry comes from a record bearing the actor's own id (and every
non-empty own record is displayed); when it is granted, the displayed entries
are exactly the non-empty grade lists of all users, each with its mean. -/
theorem c4_show_grades_scope (auth : UserDTO → Action → Bool) (user : UserDTO)
    (s : DBState) :
    (auth user .SHOW_GRADES = false →
      (∀ e ∈ show_grades auth user s,
        ∃ u, u ∈ s.db ∧ u.id = user.id ∧ u.grades ≠ [] ∧
          e = (u.email, u.grades, mean u.grades))
      ∧ ∀ u ∈ s.db, u.id = user.id → u.grades ≠ [] →
          (u.email, u.grades, mean u.grades) ∈ show_grades auth user s)
    ∧ (auth user .SHOW_GRADES = true →
      (∀ u ∈ s.db, u.grades ≠ [] →
        (u.email, u.grades, mean u.grades) ∈ show_grades auth user s)
      ∧ ∀ e ∈ show_grades auth user s,
          ∃ u, u ∈ s.db ∧ u.grades ≠ [] ∧
            e = (u.email, u.grades, mean u.grades)) := by
  constructor
  · intro h
    constructor
    · intro e he
      simp only [show_grades, h, Bool.false_or, List.mem_filterMap] at he
      obtain ⟨u, hu, heq⟩ := he
      by_cases hc : (!u.grades.isEmpty && (user.id == u.id)) = true
      · rw [if_pos hc] at heq
        obtain ⟨h1, h2⟩ := Bool.and_eq_true_iff.mp hc
        refine ⟨u, hu, (beq_iff_eq.mp h2).symm, ?_, (Option.some.inj heq).symm⟩
        simpa using h1
      · rw [if_neg hc] at heq
        cases heq
    · intro u hu hid hne
      simp only [show_grades, h, Bool.false_or, List.mem_filterMap]
      refine ⟨u, hu, ?_⟩
      rw [if_pos (by simp [hne, hid])]
  · intro h
    constructor
    · intro u hu hne
      simp only [show_grades, h, Bool.true_or, Bool.and_true, List.mem_filterMap]
      refine ⟨u, hu, ?_⟩
      rw [if_pos (by simp [hne])]
    · intro e he
      simp only [show_grades, h, Bool.true_or, Bool.and_true, List.mem_filterMap] at he
      obtain ⟨u, hu, heq⟩ := he
      by_cases hc : (!u.grades.isEmpty) = true
      · rw [if_pos hc] at heq
        refine ⟨u, hu, by simpa using hc, (Option.some.inj heq).symm⟩
      · rw [if_neg hc] at heq
        cases heq

/-- A two-user state used to exercise `show_grades` scoping. -/
def two_user_state : DBState :=
  { db := [{ id := "u1", email := "u@x.com", name := "U",
             pw_hash := [], grades := [(5 : ℚ)] },
           { id := "u2", email := "v@x.com", name := "V",
             pw_hash := [], grades := [(3 : ℚ)] }],
    file := [], policy := [] }

/-- Witness for C4: with authorization denied, the actor's own non-empty
grade list is displayed. -/
theorem c4_witness :
    ("u@x.com", ([(5 : ℚ)], mean [(5 : ℚ)]))
      ∈ show_grades auth_deny ⟨"u1", "u@x.com"⟩ two_user_state :=
  ((c4_show_grades_scope auth_deny ⟨"u1", "u@x.com"⟩ two_user_state).1 rfl).2
    { id := "u1", email := "u@x.com", name := "U", pw_hash := [], grades := [(5 : ℚ)] }
    (by decide) rfl (by decide)

/-- Claim C5: the grade prompt accepts a value exactly when it lies in
`[0, 6]` (rejection happens at the input boundary, before the store is
touched), and every operation preserves the invariant that all stored grades
lie in `[0, 6]` — `enter_grade` because only accepted grades reach it,
account creation because new records start with no grades, password reset
because it never touches grades. -/
theorem c5_grade_bounds (auth : UserDTO → Action → Bool) (user : UserDTO)
    (email : String) (g : ℚ) (s : DBState) (code code_entered : Nat)
    (newHash pwHash : List Nat) (nm uid : String) (itb : Bool) :
    (grade_accepted g = true ↔ (0 ≤ g ∧ g ≤ 6))
    ∧ (grade_accepted g = true → grades_in_range s.db →
        grades_in_range (enter_grade auth user email g s).1.db)
    ∧ (grades_in_range s.db →
        grades_in_range (create_account auth user itb email pwHash nm uid s).1.db)
    ∧ (grades_in_range s.db →
        grades_in_range (reset_password user code code_entered newHash s).1.db) := by
  refine ⟨?_, ?_, ?_, ?_⟩
  · simp [grade_accepted]
  · intro hg hinv
    rw [enter_grade]
    by_cases ha : auth user .ENTER_GRADE = true
    · rw [if_neg (by simp [ha])]
      rcases hm : update_first (fun u => u.email == email)
          (fun u => { u with grades := u.grades ++ [g] }) s.db with _ | db'
      · simpa [save_database_to_file] using hinv
      · intro u hu
        rcases update_first_mem _ _ _ _ hm u hu with hu' | ⟨v, hv, rfl⟩
        · exact hinv u hu'
        · intro x hx
          rcases List.mem_append.mp hx with hx | hx
          · exact hinv v hv x hx
          · rcases List.mem_singleton.mp hx with rfl
            have := (show grade_accepted x = true ↔ (0 ≤ x ∧ x ≤ 6) by
              simp [grade_accepted]).mp hg
            exact this
    · rw [if_pos (by simp [Bool.not_eq_true] at ha; simp [ha])]
      exact hinv
  · intro hinv
    rw [create_account]
    split
    · exact hinv
    · split
      · exact hinv
      · intro u hu
        simp only [save_database_to_file] at hu
        rcases List.mem_append.mp hu with hu | hu
        · exact hinv u hu
        · rcases List.mem_singleton.mp hu with rfl
          intro x hx
          cases hx
  · intro hinv
    rw [reset_password]
    split
    · exact hinv
    · split
      · rcases hm : update_first (fun u => u.email == user.email)
            (fun u => { u with pw_hash := newHash }) s.db with _ | db'
        · simpa [save_database_to_file] using hinv
        · intro u hu
          rcases update_first_mem _ _ _ _ hm u hu with hu' | ⟨v, hv, rfl⟩
          · exact hinv u hu'
          · exact hinv v hv
      · simpa [save_database_to_file] using hinv

/-- Witness for C5 at a concrete accepted grade and concrete state. -/
theorem c5_witness :
    grades_in_range
      (enter_grade auth_allow ⟨"t1", "t@x.com"⟩ "s@x.com" (4 : ℚ)
        sample_state).1.db :=
  (c5_grade_bounds auth_allow ⟨"t1", "t@x.com"⟩ "s@x.com" (4 : ℚ) sample_state
    0 0 [] [] "n" "u" false).2.1 (by decide) (by decide)

/-- Claim C8: `create_account` performs no email-uniqueness check: two
authorized creations with the same email (and the distinct fresh ids the
UUID source produces) leave the store holding two records with distinct ids
and that same email. -/
theorem c8_duplicate_emails_two_records (auth : UserDTO → Action → Bool)
    (user : UserDTO) (e : String) (h1 h2 : List Nat) (n1 n2 uid1 uid2 : String)
    (s : DBState) (hid : uid1 ≠ uid2) (hauth : auth user .STUDENT_ACC = true) :
    ∃ r1 r2,
      r1 ∈ (create_account auth user false e h2 n2 uid2
              (create_account auth user false e h1 n1 uid1 s).1).1.db
      ∧ r2 ∈ (create_account auth user false e h2 n2 uid2
              (create_account auth user false e h1 n1 uid1 s).1).1.db
      ∧ r1.email = e ∧ r2.email = e ∧ r1.id ≠ r2.id := by
  refine ⟨⟨uid1, e, n1, h1, []⟩, ⟨uid2, e, n2, h2, []⟩, ?_, ?_, rfl, rfl, ?_⟩
  · simp [create_account, hauth, save_database_to_file]
  · simp [create_account, hauth, save_database_to_file]
  · exact hid

/-- Witness for C8: two concrete creations with the same email on an empty
store. -/
theorem c8_witness :
    ∃ r1 r2,
      r1 ∈ (create_account auth_allow ⟨"a", "x"⟩ false "dup@x.com" [] "N2" "uid-2"
              (create_account auth_allow ⟨"a", "x"⟩ false "dup@x.com" [] "N1" "uid-1"
                { db := [], file := [], policy := [] }).1).1.db
      ∧ r2 ∈ (create_account auth_allow ⟨"a", "x"⟩ false "dup@x.com" [] "N2" "uid-2"
              (create_account auth_allow ⟨"a", "x"⟩ false "dup@x.com" [] "N1" "uid-1"
                { db := [], file := [], policy := [] }).1).1.db
      ∧ r1.email = "dup@x.com" ∧ r2.email = "dup@x.com" ∧ r1.id ≠ r2.id :=
  c8_duplicate_emails_two_records auth_allow ⟨"a", "x"⟩ "dup@x.com" [] []
    "N1" "N2" "uid-1" "uid-2" { db := [], file := [], policy := [] }
    (by decide) rfl

end SecProjet
